import Mathlib

/-!
Verification of the strollby/mongoengine excerpt: the backend-capability shim
for document counting (`mongoengine/pymongo_support.py`), the query
field-projection algebra (`QueryFieldList`), and the atomic find-and-modify
operation, against the repository's natural-language specification.

The counting shim is embedded directly from `src/mongoengine/pymongo_support.py`.
The projection algebra and the modify operation are not part of the source
excerpt (only their test suites are), so they are modelled from the
specification, pinned to the expected values of the repository's unit tests
(`src/tests/queryset/test_field_list.py`, `src/tests/queryset/test_modify.py`).
-/

namespace Mongoengine

/-! ## Character/substring helpers

Python's `needle in str(err)` membership test, embedded as an executable
substring check on the underlying character lists. -/

/-- `charsAtFront needle l` is true when `needle` occurs at the front of `l`. -/
def charsAtFront : List Char → List Char → Bool
  | [], _ => true
  | _ :: _, [] => false
  | a :: as, b :: bs => a == b && charsAtFront as bs

/-- `charsSub needle l` is true when `needle` occurs contiguously anywhere in `l`. -/
def charsSub (needle : List Char) : List Char → Bool
  | [] => needle.isEmpty
  | b :: bs => charsAtFront needle (b :: bs) || charsSub needle bs

/-- Python's `needle in haystack` substring test. -/
def strContains (haystack needle : String) : Bool :=
  charsSub needle.toList haystack.toList

/-! ## Embedding of `count_documents` (src/mongoengine/pymongo_support.py)

The function takes `collection, filter, skip, limit, hint, collation`, plus the
ambient `PYMONGO_VERSION` (a pair of numbers) and the ambient session from
`connection._get_session()` (modelled as a Boolean `sessionActive`, with the
session value itself recorded in the issued call).  The backend collection is
modelled by what its two count methods would return (`Backend`); the value and
the list of issued backend calls are both returned so that claims about "which
request was issued" are statable. -/

/-- A value stored in the `kwargs` dict built by `count_documents`
(lines 30-38): skip/limit/hint values are numbers, a collation is kept
abstract as a string. -/
inductive KwVal
  | int (n : Int)
  | str (s : String)
deriving DecidableEq

/-- A Python dict of keyword arguments (insertion-ordered key/value pairs). -/
abbrev Kwargs := List (String × KwVal)

/-- `PYMONGO_VERSION >= (3, 7)`: lexicographic comparison of two-component
version tuples. -/
def verGE (v w : Nat × Nat) : Bool :=
  decide (w.1 < v.1 ∨ (v.1 = w.1 ∧ w.2 ≤ v.2))

/-- The `kwargs` dict assembled on lines 30-38 of `pymongo_support.py`:
`skip`/`limit`/`collation` are added when not `None`, `hint` when
`hint not in (-1, None)`. -/
def buildKwargs (skip limit hint : Option Int) (collation : Option String) : Kwargs :=
  (match skip with
   | some s => [("skip", KwVal.int s)]
   | none => []) ++
  (match limit with
   | some l => [("limit", KwVal.int l)]
   | none => []) ++
  (match hint with
   | some h => if h = -1 then [] else [("hint", KwVal.int h)]
   | none => []) ++
  (match collation with
   | some c => [("collation", KwVal.str c)]
   | none => [])

/-- The geospatial operator-incompatibility message of line 61. -/
def geoNearMsg : String :=
  "$geoNear, $near, and $nearSphere are not allowed in this context"

/-- The `$where` operator-incompatibility message of line 63. -/
def whereMsg : String :=
  "$where is not allowed in this context"

/-- Lines 60-65: the except-handler falls through to the legacy cursor count
exactly when one of the two enumerated messages occurs in `str(err)`
(otherwise it re-raises). -/
def fallbackEligible (msg : String) : Bool :=
  strContains msg geoNearMsg || strContains msg whereMsg

/-- Line 44: `not filter and set(kwargs) <= {"max_time_ms"} and not
is_active_session` — the guard choosing `estimated_document_count`. -/
def estimatedEligible (filter : Kwargs) (kwargs : Kwargs) (sessionActive : Bool) : Bool :=
  filter.isEmpty && kwargs.all (fun p => p.1 == "max_time_ms") && !sessionActive

/-- How a call to `count_documents` can fail: an `OperationFailure` raised by
the backend (carrying its message), or the `TypeError` raised by the `async
for` loop of the legacy branch (see `legacyCursorCount`). -/
inductive CountError
  | opFailure (msg : String)
  | typeError
deriving DecidableEq

/-- A request issued against the backend collection.  `cursorFind` records the
construction of a cursor by `collection.find(filter)` (line 67), which in
pymongo is lazy and performs no server round trip by itself. -/
inductive BackendCall
  | estimatedCount (kwargs : Kwargs)
  | exactCount (filter : Kwargs) (sessionActive : Bool) (kwargs : Kwargs)
  | cursorFind (filter : Kwargs)
deriving DecidableEq

/-- The backend collection, modelled by the outcome its two count methods
would produce if invoked (`Except.error msg` models raising
`OperationFailure(msg)`). -/
structure Backend where
  estimated : Except String Nat
  exact : Except String Nat

/-- Lines 67-72, the legacy `Cursor.count` branch.  `collection.find(filter)`
constructs a cursor lazily (recorded, no server I/O), and then
`async for option, option_value in kwargs.items():` raises `TypeError`
immediately — `dict_items` is not an async iterable (it has no `__aiter__`),
and the lookup fails before any iteration, even for an empty dict — so the
branch never reaches `cursor.count` and never returns a count. -/
def legacyCursorCount (filter : Kwargs) : Except CountError Nat × List BackendCall :=
  (Except.error CountError.typeError, [BackendCall.cursorFind filter])

/-- Lines 52-65, the `except OperationFailure as err:` handler, reached with
the error message `msg` and the backend calls issued so far: re-raise on
pymongo >= 4 (line 53-54), re-raise when neither enumerated
operator-incompatibility message occurs in `str(err)` (lines 60-65), and
otherwise fall through to the legacy branch. -/
def handleFailure (ver : Nat × Nat) (filter : Kwargs) (msg : String)
    (calls : List BackendCall) : Except CountError Nat × List BackendCall :=
  if 4 ≤ ver.1 then
    (Except.error (CountError.opFailure msg), calls)
  else if fallbackEligible msg then
    let legacy := legacyCursorCount filter
    (legacy.1, calls ++ legacy.2)
  else
    (Except.error (CountError.opFailure msg), calls)

/-- Lines 23-72 of `src/mongoengine/pymongo_support.py`: `count_documents`.
`ver` is `PYMONGO_VERSION` (`PYMONGO_VERSION >= (4,)` on a two-component
tuple is `4 ≤ ver.1`), `sess` is whether `connection._get_session()` is not
`None`, and `filter` is the filter dict (Python falsiness of a dict is
emptiness).  Returns the produced value or raised error, together with the
list of backend requests issued. -/
def count_documents (ver : Nat × Nat) (sess : Bool) (be : Backend)
    (filter : Kwargs) (skip limit hint : Option Int) (collation : Option String) :
    Except CountError Nat × List BackendCall :=
  if limit = some 0 then
    (Except.ok 0, [])
  else
    let kwargs := buildKwargs skip limit hint collation
    if verGE ver (3, 7) then
      if estimatedEligible filter kwargs sess then
        match be.estimated with
        | Except.ok n => (Except.ok n, [BackendCall.estimatedCount kwargs])
        | Except.error msg =>
            handleFailure ver filter msg [BackendCall.estimatedCount kwargs]
      else
        match be.exact with
        | Except.ok n => (Except.ok n, [BackendCall.exactCount filter sess kwargs])
        | Except.error msg =>
            handleFailure ver filter msg [BackendCall.exactCount filter sess kwargs]
    else
      legacyCursorCount filter

/-! ## The projection algebra: `QueryFieldList`

Modelled from the spec: the `QueryFieldList` class itself
(`mongoengine/queryset/field_list.py`) is not part of the source excerpt —
only its unit tests (`src/tests/queryset/test_field_list.py`) are.  The model
follows the spec's ProjectionSpec data model (§3: a mode in {UNSET, ONLY,
EXCLUDE}, a field set, an `always_include` set, an `only_called` flag) and the
merge rules of §4.1, with every rule pinned to the repository's unit tests:

* UNSET + anything adopts the incoming mode and field batch (§3: the first
  directive sets the mode);
* ONLY + Include: union when an explicit `only` call was already applied
  (`only_called`), otherwise the new inclusion batch replaces the old
  (`test_include_include`, and `TestOnlyExcludeAll.test_mixing_only_exclude`
  where `.fields(...)` followed by `.only(...)` yields only the `only` set);
* ONLY + Exclude: set difference (`test_include_exclude`);
* EXCLUDE + Exclude: union (`test_exclude_exclude`);
* EXCLUDE + Include: the mode flips to ONLY and the new field set is the
  incoming batch minus the previously excluded fields — `test_exclude_include`
  (`Exclude {a,b}` then `Include {b,c}` gives `{c: 1}`) pins this down, which
  deviates from the literal wording of spec §4.1 rule 4 ("exactly the newly
  included fields");
* after the mode logic, `always_include` fields are unioned in under a
  non-empty ONLY result and subtracted from the field set otherwise
  (`test_always_include`, `test_reset`).

Slice directives and the special `_id` entry are omitted: no claim mentions
them and no merge of the claims involves them. -/

/-- The mode of a ProjectionSpec (spec §3). -/
inductive FieldListValue
  | unset
  | only
  | exclude
deriving DecidableEq

/-- Modelled from the spec: the ProjectionSpec accumulator (spec §3), also
used for an incoming directive batch (whose `always_include` is empty). -/
structure QueryFieldList where
  value : FieldListValue
  fields : Finset String
  always_include : Finset String
  only_called : Bool
deriving DecidableEq

namespace QueryFieldList

/-- A fresh, empty spec, optionally seeded with `always_include` (spec §3). -/
def init (always : Finset String) : QueryFieldList :=
  ⟨FieldListValue.unset, ∅, always, false⟩

/-- Modelled from the spec: merging one directive batch into a spec
(spec §4.1 precedence rules; `q += f` of the unit tests). -/
def add (q f : QueryFieldList) : QueryFieldList :=
  let merged : QueryFieldList :=
    match q.value, f.value with
    | FieldListValue.unset, _ => { q with value := f.value, fields := f.fields }
    | _, FieldListValue.unset => q
    | FieldListValue.only, FieldListValue.only =>
        { q with fields := if q.only_called then q.fields ∪ f.fields else f.fields }
    | FieldListValue.exclude, FieldListValue.exclude =>
        { q with fields := q.fields ∪ f.fields }
    | FieldListValue.only, FieldListValue.exclude =>
        { q with fields := q.fields \ f.fields }
    | FieldListValue.exclude, FieldListValue.only =>
        { q with value := FieldListValue.only, fields := f.fields \ q.fields }
  let adjusted : QueryFieldList :=
    if merged.value = FieldListValue.only ∧ merged.fields ≠ ∅ then
      { merged with fields := merged.fields ∪ merged.always_include }
    else
      { merged with fields := merged.fields \ merged.always_include }
  { adjusted with only_called := adjusted.only_called || f.only_called }

/-- Modelled from the spec: `reset()` clears fields and mode but preserves
`always_include` (spec §4.1 rule 7). -/
def reset (q : QueryFieldList) : QueryFieldList :=
  { q with value := FieldListValue.unset, fields := ∅ }

/-- Modelled from the spec: `as_dict()`, the wire projection — every field
maps to `1` under ONLY mode and to `0` under EXCLUDE mode; an UNSET spec
renders no restriction (spec §4.1 `as_wire_projection`). -/
def as_dict (q : QueryFieldList) : Finset (String × Nat) :=
  match q.value with
  | FieldListValue.unset => ∅
  | FieldListValue.only => q.fields.image (fun f => (f, 1))
  | FieldListValue.exclude => q.fields.image (fun f => (f, 0))

end QueryFieldList

/-! ### Model validation against the repository's unit tests

Each theorem below replays one test of
`src/tests/queryset/test_field_list.py::TestQueryFieldList` on the model and
checks the asserted dict. -/

/-- `test_include_include`: two inclusion batches (the first from an explicit
`only` call) accumulate additively. -/
theorem model_test_include_include :
    ((QueryFieldList.init ∅).add ⟨FieldListValue.only, {"a", "b"}, ∅, true⟩).as_dict
        = {("a", 1), ("b", 1)} ∧
    (((QueryFieldList.init ∅).add ⟨FieldListValue.only, {"a", "b"}, ∅, true⟩).add
        ⟨FieldListValue.only, {"b", "c"}, ∅, false⟩).as_dict
        = {("a", 1), ("b", 1), ("c", 1)} := by
  constructor <;> decide

/-- `test_include_exclude`: an exclusion batch subtracts from the inclusion set. -/
theorem model_test_include_exclude :
    (((QueryFieldList.init ∅).add ⟨FieldListValue.only, {"a", "b"}, ∅, false⟩).add
        ⟨FieldListValue.exclude, {"b", "c"}, ∅, false⟩).as_dict = {("a", 1)} := by
  decide

/-- `test_exclude_exclude`: two exclusion batches accumulate by union. -/
theorem model_test_exclude_exclude :
    (((QueryFieldList.init ∅).add ⟨FieldListValue.exclude, {"a", "b"}, ∅, false⟩).add
        ⟨FieldListValue.exclude, {"b", "c"}, ∅, false⟩).as_dict
        = {("a", 0), ("b", 0), ("c", 0)} := by
  decide

/-- `test_exclude_include`: an inclusion batch after an exclusion spec flips
the mode to ONLY and keeps the new fields minus the previously excluded ones. -/
theorem model_test_exclude_include :
    (((QueryFieldList.init ∅).add ⟨FieldListValue.exclude, {"a", "b"}, ∅, false⟩).add
        ⟨FieldListValue.only, {"b", "c"}, ∅, false⟩).as_dict = {("c", 1)} := by
  decide

/-- `test_reset`: after `reset`, the next inclusion starts fresh and
re-acquires the `always_include` fields. -/
theorem model_test_reset :
    (((((QueryFieldList.init {"x", "y"}).add
          ⟨FieldListValue.exclude, {"a", "b", "x"}, ∅, false⟩).add
          ⟨FieldListValue.only, {"b", "c"}, ∅, false⟩).reset).add
          ⟨FieldListValue.only, {"b", "c"}, ∅, false⟩).as_dict
      = {("x", 1), ("y", 1), ("b", 1), ("c", 1)} := by
  decide

/-! ## The atomic modify operation

Modelled from the spec: the `QuerySet.modify` implementation
(`mongoengine/queryset/base.py`) is not part of the source excerpt — only its
test suite (`src/tests/queryset/test_modify.py`) is.  The model follows spec
§4.4 (AtomicModifyOperation) and §7 (error taxonomy):

* a document is a flat mapping from field name to a number (the tests only use
  numeric fields), a filter is a conjunction of field-equality constraints,
  and an update is a batch of `$set` field assignments;
* `full_response=true` on a backend-driver tier whose modify API cannot return
  the raw command envelope fails with a `ValueError`-class error before any
  other processing (spec §4.4, §7: "Fails before any network call");
* `remove=true` together with an update document is a `ValueError`-class
  caller contract violation (spec §4.4, §7), also failing fast;
* otherwise the first matching document is updated in place (or removed), and
  the pre- or post-image is returned per `new`; with no match, `upsert=true`
  creates a document built from the filter's equality fields with the update
  then applied (the update winning on a conflicting field — standard
  find-and-modify upsert semantics), returning the created document when
  `new=true` and the nil pre-image when `new=false` (spec §4.4);
* the optional sort order is omitted: no claim involves it, and "first
  matching document in the stored list" plays the role of the chosen document.

The projection of the returned document (spec §4.1-4.2) is independent of the
claims here and is omitted. -/

/-- A stored document: field name to numeric value, insertion-ordered. -/
abbrev Document := List (String × Int)

/-- First-binding field lookup in a document (dict access). -/
def getField : Document → String → Option Int
  | [], _ => none
  | (k0, v0) :: rest, k => if k0 = k then some v0 else getField rest k

/-- `$set` one field: overwrite the existing binding or append a new one. -/
def setField : Document → String → Int → Document
  | [], k, v => [(k, v)]
  | (k0, v0) :: rest, k, v =>
      if k0 = k then (k, v) :: rest else (k0, v0) :: setField rest k v

/-- Apply a `$set` update batch to a document, left to right. -/
def applyUpdate (d : Document) (update : List (String × Int)) : Document :=
  update.foldl (fun acc p => setField acc p.1 p.2) d

/-- A document matches a filter when every equality constraint holds. -/
def matchesF (filter : List (String × Int)) (d : Document) : Bool :=
  filter.all (fun p => decide (getField d p.1 = some p.2))

/-- Modelled from the spec: a ModifyRequest (spec §3): filter, `$set` update
batch, and the `upsert`, `new`, `remove`, `full_response` flags. -/
structure ModifyArgs where
  filter : List (String × Int)
  update : List (String × Int)
  upsert : Bool
  new : Bool
  remove : Bool
  full_response : Bool

/-- The `ValueError`-class invalid-argument error of spec §7. -/
inductive ModifyError
  | valueError
deriving DecidableEq

/-- Modelled from the spec: locate the first matching document and perform the
update/removal/upsert, returning the requested image and the new collection
state (spec §4.4 contract). -/
def runModify (a : ModifyArgs) : List Document → Option Document × List Document
  | [] =>
      if a.remove then (none, [])
      else if a.upsert then
        let created := applyUpdate a.filter a.update
        (if a.new then some created else none, [created])
      else (none, [])
  | d :: rest =>
      if matchesF a.filter d then
        if a.remove then (some d, rest)
        else
          let d2 := applyUpdate d a.update
          (if a.new then some d2 else some d, d2 :: rest)
      else
        let res := runModify a rest
        (res.1, d :: res.2)

/-- Modelled from the spec: the atomic modify operation (spec §4.4).
`supportsEnvelope` is the backend-driver tier capability of returning the raw
command envelope; argument validation precedes any access to the stored
documents, and a validation error leaves the state unchanged (spec §7:
"resolution and argument-validation errors are synchronous and precede any
I/O"). -/
def modify (supportsEnvelope : Bool) (state : List Document) (a : ModifyArgs) :
    Except ModifyError (Option Document) × List Document :=
  if a.full_response && !supportsEnvelope then
    (Except.error ModifyError.valueError, state)
  else if a.remove && !a.update.isEmpty then
    (Except.error ModifyError.valueError, state)
  else
    let res := runModify a state
    (Except.ok res.1, res.2)

/-! ### Model validation against the repository's unit tests
(`src/tests/queryset/test_modify.py`, on documents `{_id, value}`). -/

/-- `test_modify`: an existing match returns the pre-image and the stored
document is updated. -/
theorem model_test_modify :
    modify true [[("_id", 0), ("value", 0)], [("_id", 1), ("value", 1)]]
        ⟨[("_id", 1)], [("value", -1)], false, false, false, false⟩
      = (Except.ok (some [("_id", 1), ("value", 1)]),
         [[("_id", 0), ("value", 0)], [("_id", 1), ("value", -1)]]) :=
  rfl

/-- `test_modify_with_new`: `new=true` returns the post-image. -/
theorem model_test_modify_with_new :
    modify true [[("_id", 1), ("value", 1)]]
        ⟨[("_id", 1)], [("value", -1)], false, true, false, false⟩
      = (Except.ok (some [("_id", 1), ("value", -1)]),
         [[("_id", 1), ("value", -1)]]) :=
  rfl

/-- `test_modify_not_existing`: no match and no upsert returns nil and leaves
the state unchanged. -/
theorem model_test_modify_not_existing :
    modify true [[("_id", 0), ("value", 0)]]
        ⟨[("_id", 1)], [("value", -1)], false, false, false, false⟩
      = (Except.ok none, [[("_id", 0), ("value", 0)]]) :=
  rfl

/-- `test_modify_with_remove`: `remove=true` returns the pre-image and deletes
the document. -/
theorem model_test_modify_with_remove :
    modify true [[("_id", 0), ("value", 0)], [("_id", 1), ("value", 1)]]
        ⟨[("_id", 1)], [], false, false, true, false⟩
      = (Except.ok (some [("_id", 1), ("value", 1)]),
         [[("_id", 0), ("value", 0)]]) :=
  rfl

/-- `test_modify_with_upsert_with_new`: upsert with `new=true` returns the
created document. -/
theorem model_test_modify_with_upsert_with_new :
    modify true [[("_id", 0), ("value", 0)]]
        ⟨[("_id", 1)], [("value", 1)], true, true, false, false⟩
      = (Except.ok (some [("_id", 1), ("value", 1)]),
         [[("_id", 0), ("value", 0)], [("_id", 1), ("value", 1)]]) :=
  rfl

/-! ## Helper lemmas -/

/-- Looking a key up after a `$set` of a (possibly different) key. -/
theorem getField_setField (d : Document) (k k2 : String) (v : Int) :
    getField (setField d k2 v) k = if k2 = k then some v else getField d k := by
  induction d with
  | nil => simp [setField, getField]
  | cons p rest ih =>
      obtain ⟨k0, v0⟩ := p
      simp only [setField]
      split_ifs with h1 <;> simp only [getField] <;> split_ifs <;> simp_all [getField]

/-- A key absent from a document looks up to `none`. -/
theorem getField_eq_none (l : Document) (k : String) (h : k ∉ l.map Prod.fst) :
    getField l k = none := by
  induction l with
  | nil => rfl
  | cons p rest ih =>
      obtain ⟨k0, v0⟩ := p
      simp only [List.map_cons, List.mem_cons] at h
      push_neg at h
      simp only [getField]
      rw [if_neg (fun hh => h.1 hh.symm), ih h.2]

/-- In a document with no duplicate keys, a present binding is what lookup
returns. -/
theorem getField_eq_some_of_mem (l : Document) (k : String) (v : Int)
    (hnd : (l.map Prod.fst).Nodup) (hm : (k, v) ∈ l) : getField l k = some v := by
  induction l with
  | nil => simp at hm
  | cons p rest ih =>
      obtain ⟨k0, v0⟩ := p
      simp only [List.map_cons, List.nodup_cons] at hnd
      rcases List.mem_cons.mp hm with h | h
      · obtain ⟨rfl, rfl⟩ := Prod.mk.injEq .. ▸ h
        simp [getField]
      · have hk : k0 ≠ k := by
          intro e
          subst e
          exact hnd.1 (List.mem_map.mpr ⟨(k0, v), h, rfl⟩)
        simp only [getField, if_neg hk]
        exact ih hnd.2 h

/-- Lookup through an applied update batch with no duplicate update keys:
the update's binding wins, otherwise the old document's binding remains. -/
theorem getField_applyUpdate (update : List (String × Int)) (d : Document)
    (k : String) (h : (update.map Prod.fst).Nodup) :
    getField (applyUpdate d update)
        k = ((getField update k).rec (getField d k) (fun w => some w) : Option Int) := by
  induction update generalizing d with
  | nil => simp [applyUpdate, getField]
  | cons p rest ih =>
      obtain ⟨k0, v0⟩ := p
      simp only [List.map_cons, List.nodup_cons] at h
      have step : applyUpdate d ((k0, v0) :: rest) = applyUpdate (setField d k0 v0) rest := rfl
      rw [step, ih (setField d k0 v0) h.2, getField_setField]
      by_cases hk : k0 = k
      · subst hk
        rw [getField_eq_none rest k0 h.1]
        simp [getField]
      · simp only [getField, if_neg hk]

/-- A modify whose filter matches nothing traverses the whole collection and
acts via the empty-collection base case. -/
theorem runModify_of_no_match (a : ModifyArgs) (state : List Document)
    (h : ∀ d ∈ state, matchesF a.filter d = false) :
    runModify a state = ((runModify a []).1, state ++ (runModify a []).2) := by
  induction state with
  | nil => simp
  | cons d rest ih =>
      have hd : matchesF a.filter d = false := h d (List.mem_cons_self d rest)
      have hrest := ih (fun x hx => h x (List.mem_cons_of_mem d hx))
      simp [runModify, hd, hrest]

/-- The first backend call recorded before entering the failure handler stays
the first call in its output. -/
theorem handleFailure_head (ver : Nat × Nat) (filter : Kwargs) (msg : String)
    (c : BackendCall) (rest : List BackendCall) :
    ((handleFailure ver filter msg (c :: rest)).2).head? = some c := by
  unfold handleFailure
  split_ifs <;> simp [legacyCursorCount]

/-- If the failure handler's output mentions a cursor construction that was
not already recorded, the handler took the legacy fallback and produced the
`TypeError`. -/
theorem handleFailure_cursor_mem (ver : Nat × Nat) (filter f : Kwargs) (msg : String)
    (calls : List BackendCall)
    (h : BackendCall.cursorFind f ∈ (handleFailure ver filter msg calls).2)
    (hcalls : BackendCall.cursorFind f ∉ calls) :
    (handleFailure ver filter msg calls).1 = Except.error CountError.typeError := by
  unfold handleFailure at h ⊢
  split_ifs at h ⊢ <;> simp_all [legacyCursorCount]

/-- The code's `estimated_document_count` guard, characterised in terms of the
call's arguments: no filter, no active session, and no option beyond a
max-time bound set (the kwargs dict built on lines 30-38 never contains
`max_time_ms`, so the subset test of line 44 holds exactly when no kwarg was
set at all; `hint=-1` counts as unset). -/
theorem estimatedEligible_iff (filter : Kwargs) (sess : Bool)
    (skip limit hint : Option Int) (collation : Option String) :
    estimatedEligible filter (buildKwargs skip limit hint collation) sess = true
      ↔ (filter = [] ∧ sess = false ∧ skip = none ∧ limit = none ∧
         (hint = none ∨ hint = some (-1)) ∧ collation = none) := by
  rcases hint with _ | h
  · cases skip <;> cases limit <;> cases collation <;>
      simp_all +decide [estimatedEligible, buildKwargs, List.isEmpty_iff]
  · by_cases hh : h = -1 <;>
      cases skip <;> cases limit <;> cases collation <;>
      simp_all +decide [estimatedEligible, buildKwargs, List.isEmpty_iff]

/-! ## Claims about `count_documents` -/

/-- C1: a call to the document-counting operation with `limit = 0` returns `0`
and issues no backend request of any kind, regardless of the filter, skip,
hint, or collation arguments (and of the driver version, session state and
backend behaviour). -/
theorem claim_C1_limit_zero_short_circuit (ver : Nat × Nat) (sess : Bool) (be : Backend)
    (filter : Kwargs) (skip hint : Option Int) (collation : Option String) :
    count_documents ver sess be filter skip (some 0) hint collation
      = (Except.ok 0, []) := by
  simp [count_documents]

/-- C10: the kwargs dict forwarded to the backend command contains `hint`
exactly when the hint argument is neither `None` nor `-1` (a `-1` hint is
silently dropped, the same as no hint), and contains `skip`, `limit`,
`collation` exactly when the corresponding argument is not `None`. -/
theorem claim_C10_kwargs_forwarding (skip limit hint : Option Int)
    (collation : Option String) :
    ("hint" ∈ (buildKwargs skip limit hint collation).map Prod.fst
        ↔ hint ≠ none ∧ hint ≠ some (-1)) ∧
    ("skip" ∈ (buildKwargs skip limit hint collation).map Prod.fst ↔ skip ≠ none) ∧
    ("limit" ∈ (buildKwargs skip limit hint collation).map Prod.fst ↔ limit ≠ none) ∧
    ("collation" ∈ (buildKwargs skip limit hint collation).map Prod.fst
        ↔ collation ≠ none) ∧
    buildKwargs skip limit (some (-1)) collation = buildKwargs skip limit none collation := by
  rcases hint with _ | h
  · cases skip <;> cases limit <;> cases collation <;> simp_all +decide [buildKwargs]
  · by_cases hh : h = -1 <;>
      cases skip <;> cases limit <;> cases collation <;> simp_all +decide [buildKwargs]

/-- C2: on a driver tier with the modern count commands (`version >= (3, 7)`)
and with `limit ≠ 0`, the metadata-based estimated count is issued exactly
when the filter is empty, no session is active, and no option beyond a
max-time bound is set; in every other case the exact count command carrying
the filter, the session and the set options is issued. -/
theorem claim_C2_estimated_vs_exact (ver : Nat × Nat) (sess : Bool) (be : Backend)
    (filter : Kwargs) (skip limit hint : Option Int) (collation : Option String)
    (hver : verGE ver (3, 7) = true) (hlim : limit ≠ some 0) :
    ((filter = [] ∧ sess = false ∧ skip = none ∧ limit = none ∧
        (hint = none ∨ hint = some (-1)) ∧ collation = none) →
      (count_documents ver sess be filter skip limit hint collation).2.head?
        = some (BackendCall.estimatedCount (buildKwargs skip limit hint collation))) ∧
    (¬(filter = [] ∧ sess = false ∧ skip = none ∧ limit = none ∧
        (hint = none ∨ hint = some (-1)) ∧ collation = none) →
      (count_documents ver sess be filter skip limit hint collation).2.head?
        = some (BackendCall.exactCount filter sess
            (buildKwargs skip limit hint collation))) := by
  constructor
  · intro hP
    have hel : estimatedEligible filter (buildKwargs skip limit hint collation) sess
        = true := (estimatedEligible_iff filter sess skip limit hint collation).mpr hP
    simp only [count_documents, if_neg hlim, hver, if_true, hel]
    cases be.estimated <;> simp [handleFailure_head]
  · intro hP
    have hel : estimatedEligible filter (buildKwargs skip limit hint collation) sess
        = false := by
      rcases Bool.eq_false_or_eq_true
        (estimatedEligible filter (buildKwargs skip limit hint collation) sess) with h | h
      · exact absurd ((estimatedEligible_iff filter sess skip limit hint collation).mp h) hP
      · exact h
    simp only [count_documents, if_neg hlim, hver, if_true, hel]
    cases be.exact <;> simp [handleFailure_head]

/-- C2 witness: pymongo 3.7, no session, empty filter, no options — the
estimated count is the issued request. -/
theorem claim_C2_witness :
    (count_documents (3, 7) false ⟨Except.ok 5, Except.ok 5⟩ [] none none none none).2.head?
      = some (BackendCall.estimatedCount (buildKwargs none none none none)) := by
  have h := claim_C2_estimated_vs_exact (3, 7) false ⟨Except.ok 5, Except.ok 5⟩
    [] none none none none (by decide) (by decide)
  exact h.1 ⟨rfl, rfl, rfl, rfl, Or.inl rfl, rfl⟩

/-- C3: when the exact count raises an `OperationFailure` with message `msg`:
on pymongo 4 and above the failure always propagates unchanged and the legacy
cursor path is never constructed; on older tiers the legacy cursor-count
fallback is taken exactly when the message matches one of the two enumerated
operator-incompatibility messages, any other failure propagating unchanged
(and the fallback itself ends in the legacy branch's `TypeError`). -/
theorem claim_C3_failure_policy (ver : Nat × Nat) (sess : Bool) (be : Backend)
    (filter : Kwargs) (skip limit hint : Option Int) (collation : Option String)
    (msg : String)
    (hver : verGE ver (3, 7) = true) (hlim : limit ≠ some 0)
    (hexact : estimatedEligible filter (buildKwargs skip limit hint collation) sess
      = false)
    (herr : be.exact = Except.error msg) :
    (4 ≤ ver.1 →
      (count_documents ver sess be filter skip limit hint collation).1
          = Except.error (CountError.opFailure msg) ∧
      BackendCall.cursorFind filter
          ∉ (count_documents ver sess be filter skip limit hint collation).2) ∧
    (ver.1 < 4 →
      ((BackendCall.cursorFind filter
          ∈ (count_documents ver sess be filter skip limit hint collation).2)
        ↔ fallbackEligible msg = true) ∧
      (fallbackEligible msg = false →
        (count_documents ver sess be filter skip limit hint collation).1
          = Except.error (CountError.opFailure msg)) ∧
      (fallbackEligible msg = true →
        (count_documents ver sess be filter skip limit hint collation).1
          = Except.error CountError.typeError)) := by
  simp only [count_documents, if_neg hlim, hver, if_true, hexact, Bool.false_eq_true,
    if_false, herr]
  constructor
  · intro h4
    unfold handleFailure
    rw [if_pos h4]
    simp
  · intro h4
    have h4n : ¬ 4 ≤ ver.1 := by omega
    unfold handleFailure
    rw [if_neg h4n]
    by_cases hfb : fallbackEligible msg = true
    · simp [hfb, legacyCursorCount]
    · simp only [Bool.not_eq_true] at hfb
      simp [hfb]

/-- C3 witness: pymongo 3.8 with a nonempty filter and an exact count
rejecting with the geospatial operator-incompatibility message — the legacy
fallback is taken and ends in the legacy branch's `TypeError`. -/
theorem claim_C3_witness :
    (count_documents (3, 8) false ⟨Except.ok 0, Except.error geoNearMsg⟩
        [("a", KwVal.int 1)] none none none none).1
      = Except.error CountError.typeError := by
  have h := claim_C3_failure_policy (3, 8) false ⟨Except.ok 0, Except.error geoNearMsg⟩
    [("a", KwVal.int 1)] none none none none geoNearMsg
    (by decide) (by decide) (by decide) rfl
  exact (h.2 (by decide)).2.2 (by decide)

/-- C9: any execution of the document-counting operation that reaches the
legacy cursor-count branch (recorded by the lazy cursor construction in its
trace) raises the `TypeError` of the `async for` over a plain dict instead of
returning a count — the legacy branch can never successfully return a count. -/
theorem claim_C9_legacy_type_error (ver : Nat × Nat) (sess : Bool) (be : Backend)
    (filter : Kwargs) (skip limit hint : Option Int) (collation : Option String)
    (h : BackendCall.cursorFind filter
      ∈ (count_documents ver sess be filter skip limit hint collation).2) :
    (count_documents ver sess be filter skip limit hint collation).1
      = Except.error CountError.typeError := by
  by_cases hlim : limit = some 0
  · rw [hlim] at h
    simp [count_documents] at h
  · by_cases hver : verGE ver (3, 7) = true
    · by_cases hel : estimatedEligible filter (buildKwargs skip limit hint collation) sess
          = true
      · simp only [count_documents, if_neg hlim, hver, if_true, hel] at h ⊢
        cases hbe : be.estimated with
        | ok n => rw [hbe] at h; simp at h
        | error msg =>
            rw [hbe] at h
            exact handleFailure_cursor_mem ver filter filter msg _ h (by simp)
      · simp only [Bool.not_eq_true] at hel
        simp only [count_documents, if_neg hlim, hver, if_true, hel,
          Bool.false_eq_true, if_false] at h ⊢
        cases hbe : be.exact with
        | ok n => rw [hbe] at h; simp at h
        | error msg =>
            rw [hbe] at h
            exact handleFailure_cursor_mem ver filter filter msg _ h (by simp)
    · simp only [Bool.not_eq_true] at hver
      simp [count_documents, if_neg hlim, hver, legacyCursorCount]

/-- C9 witness: pymongo 3.6 (below 3.7) goes straight to the legacy branch and
raises the `TypeError`. -/
theorem claim_C9_witness :
    (count_documents (3, 6) false ⟨Except.ok 0, Except.ok 0⟩ [] none none none none).1
      = Except.error CountError.typeError :=
  claim_C9_legacy_type_error (3, 6) false ⟨Except.ok 0, Except.ok 0⟩
    [] none none none none (by decide)

/-! ## Claims about the projection algebra -/

/-- C4: merging an inclusion-mode spec over `A` (no always-include seeds) with
an exclude directive batch over `B` selects exactly `A \ B` — excluded fields
that were included are removed, excluded fields never included are ignored —
and the mode remains ONLY. -/
theorem claim_C4_include_exclude (A B : Finset String) (oc ocIn : Bool) :
    (QueryFieldList.add ⟨FieldListValue.only, A, ∅, oc⟩
        ⟨FieldListValue.exclude, B, ∅, ocIn⟩).fields = A \ B ∧
    (QueryFieldList.add ⟨FieldListValue.only, A, ∅, oc⟩
        ⟨FieldListValue.exclude, B, ∅, ocIn⟩).value = FieldListValue.only ∧
    (QueryFieldList.add ⟨FieldListValue.only, A, ∅, oc⟩
        ⟨FieldListValue.exclude, B, ∅, ocIn⟩).as_dict
      = (A \ B).image (fun f => (f, 1)) := by
  have hf : (QueryFieldList.add ⟨FieldListValue.only, A, ∅, oc⟩
      ⟨FieldListValue.exclude, B, ∅, ocIn⟩).fields = A \ B := by
    simp only [QueryFieldList.add]
    split_ifs <;> simp
  have hv : (QueryFieldList.add ⟨FieldListValue.only, A, ∅, oc⟩
      ⟨FieldListValue.exclude, B, ∅, ocIn⟩).value = FieldListValue.only := by
    simp only [QueryFieldList.add]
    split_ifs <;> rfl
  refine ⟨hf, hv, ?_⟩
  rw [QueryFieldList.as_dict, hv, hf]

/-- C5 counterexample: merging an exclusion-mode spec over `A = {a, b}` with an
include batch over `B = {b, c}` yields the selection `{c: 1}`, not `B`
rendered as `{b: 1, c: 1}` — the prior exclusion set is not discarded
outright, it is subtracted from the incoming inclusion batch (exactly what
`test_exclude_include` of the repository asserts). -/
theorem claim_C5_counterexample :
    (QueryFieldList.add ⟨FieldListValue.exclude, {"a", "b"}, ∅, false⟩
        ⟨FieldListValue.only, {"b", "c"}, ∅, false⟩).as_dict = {("c", 1)} ∧
    (QueryFieldList.add ⟨FieldListValue.exclude, {"a", "b"}, ∅, false⟩
        ⟨FieldListValue.only, {"b", "c"}, ∅, false⟩).as_dict
      ≠ ({("b", 1), ("c", 1)} : Finset (String × Nat)) := by
  decide

/-- C5 amended: merging an exclusion-mode spec over `A` (no always-include
seeds) with an include directive batch over `B` switches the mode to ONLY and
selects exactly `B \ A` — the prior exclusions are dropped as exclusions but
still subtract from the newly included batch. -/
theorem claim_C5_amended_exclude_include (A B : Finset String) (oc ocIn : Bool) :
    (QueryFieldList.add ⟨FieldListValue.exclude, A, ∅, oc⟩
        ⟨FieldListValue.only, B, ∅, ocIn⟩).fields = B \ A ∧
    (QueryFieldList.add ⟨FieldListValue.exclude, A, ∅, oc⟩
        ⟨FieldListValue.only, B, ∅, ocIn⟩).value = FieldListValue.only ∧
    (QueryFieldList.add ⟨FieldListValue.exclude, A, ∅, oc⟩
        ⟨FieldListValue.only, B, ∅, ocIn⟩).as_dict
      = (B \ A).image (fun f => (f, 1)) := by
  have hf : (QueryFieldList.add ⟨FieldListValue.exclude, A, ∅, oc⟩
      ⟨FieldListValue.only, B, ∅, ocIn⟩).fields = B \ A := by
    simp only [QueryFieldList.add]
    split_ifs <;> simp
  have hv : (QueryFieldList.add ⟨FieldListValue.exclude, A, ∅, oc⟩
      ⟨FieldListValue.only, B, ∅, ocIn⟩).value = FieldListValue.only := by
    simp only [QueryFieldList.add]
    split_ifs <;> rfl
  refine ⟨hf, hv, ?_⟩
  rw [QueryFieldList.as_dict, hv, hf]

/-- C6: on a spec created with `always_include = {x, y}`, applying
`Exclude {a, b, x}` and then `Include {b, c}` resolves to the wire projection
exactly `{x: 1, y: 1, c: 1}` — the explicitly excluded always-include field
`x` ends up included again after the later plain Include call, which drops the
prior exclusions as exclusions and re-adds the always-include fields. -/
theorem claim_C6_always_include_scenario :
    (((QueryFieldList.init {"x", "y"}).add
        ⟨FieldListValue.exclude, {"a", "b", "x"}, ∅, false⟩).add
        ⟨FieldListValue.only, {"b", "c"}, ∅, false⟩).as_dict
      = {("x", 1), ("y", 1), ("c", 1)} := by
  decide

/-! ## Claims about the atomic modify operation -/

/-- C7 counterexample: an upsert whose update overwrites a filter field
(`filter {value: 1}`, update `set value: 2`) on an empty collection returns
nil and creates a document, but the created document `{value: 2}` does not
match the filter — so it is not true of every upserting call with `new=false`
that a document matching the filter exists afterwards. -/
theorem claim_C7_counterexample :
    (modify true [] ⟨[("value", 1)], [("value", 2)], true, false, false, false⟩
      = (Except.ok none, [[("value", 2)]])) ∧
    (∀ d ∈ (modify true []
        ⟨[("value", 1)], [("value", 2)], true, false, false, false⟩).2,
      matchesF [("value", 1)] d = false) := by
  exact ⟨rfl, by decide⟩

/-- C7 amended: an atomic modify with `upsert = true` and `new = false` whose
filter (duplicate-free equality constraints) matches no stored document
returns nil, and afterwards a newly created document — the filter's equality
fields with the update applied — is stored; whenever the (duplicate-free)
update does not overwrite a filter field with a different value, that created
document matches the filter. -/
theorem claim_C7_amended_upsert (supports : Bool) (state : List Document)
    (filter update : List (String × Int))
    (hmatch : ∀ d ∈ state, matchesF filter d = false)
    (hndF : (filter.map Prod.fst).Nodup)
    (hndU : (update.map Prod.fst).Nodup)
    (hcompat : ∀ p ∈ filter,
      getField update p.1 = none ∨ getField update p.1 = some p.2) :
    modify supports state ⟨filter, update, true, false, false, false⟩
      = (Except.ok none, state ++ [applyUpdate filter update]) ∧
    matchesF filter (applyUpdate filter update) = true := by
  constructor
  · have hrun := runModify_of_no_match
      ⟨filter, update, true, false, false, false⟩ state hmatch
    simp only [modify, Bool.and_eq_true]
    rw [hrun]
    simp [runModify]
  · rw [matchesF, List.all_eq_true]
    intro p hp
    rw [decide_eq_true_eq, getField_applyUpdate update filter p.1 hndU]
    rcases hcompat p hp with hnone | hsome
    · rw [hnone]
      exact getField_eq_some_of_mem filter p.1 p.2 hndF hp
    · rw [hsome]

/-- C7 witness: the scenario of `test_modify_with_upsert` — collection
`[{_id: 0, value: 0}]`, filter `{_id: 1}`, update `set value: 1`, upsert with
`new=false` — returns nil and stores the created matching document. -/
theorem claim_C7_amended_upsert_witness :
    modify true [[("_id", 0), ("value", 0)]]
        ⟨[("_id", 1)], [("value", 1)], true, false, false, false⟩
      = (Except.ok none,
         [[("_id", 0), ("value", 0)]] ++ [applyUpdate [("_id", 1)] [("value", 1)]]) ∧
    matchesF [("_id", 1)] (applyUpdate [("_id", 1)] [("value", 1)]) = true :=
  claim_C7_amended_upsert true [[("_id", 0), ("value", 0)]] [("_id", 1)] [("value", 1)]
    (by decide) (by decide) (by decide) (by decide)

/-- C8: an atomic modify call with `full_response = true` on a backend-driver
tier whose modify API cannot return the raw command envelope fails with the
invalid-argument (`ValueError`-class) error and leaves the stored documents
unchanged, whatever the filter, update and other flags. -/
theorem claim_C8_full_response_value_error (state : List Document)
    (filter update : List (String × Int)) (upsert newFlag remove : Bool) :
    modify false state ⟨filter, update, upsert, newFlag, remove, true⟩
      = (Except.error ModifyError.valueError, state) := by
  simp [modify]

end Mongoengine
